import Mathlib

/-!
Verification of the network-layer codec of the bacnet-rs repository.

The development shallowly embeds `src/network.rs` and `src/encoding.rs`:
machine bytes become `Nat` with explicit `% 256` where the Rust code casts
(`as u8`), byte sinks become `List Nat` outputs, byte sources become
`List Nat` inputs threaded through the decoder, and fallible operations
return `Option` or a dedicated outcome type that also distinguishes the
panic of `unimplemented!()` from a typed `std::io::Result` error.
-/

/-- Network Layer PDU Message Priority (6.2.2), `NPDUPriority` in
`src/network.rs`. -/
inductive NPDUPriority : Type where
  | LifeSafety
  | CriticalEquipment
  | Urgent
  | Normal
deriving DecidableEq, Repr

/-- The `From<NPDUPriority> for u8` conversion: the two-bit priority code. -/
def NPDUPriority.toU8 : NPDUPriority → Nat
  | .LifeSafety => 0b11
  | .CriticalEquipment => 0b10
  | .Urgent => 0b01
  | .Normal => 0b00

/-- The derived `FromPrimitive` conversion `NPDUPriority::from_u8`: succeeds
exactly on the four discriminant values 0-3. -/
def NPDUPriority.fromU8 : Nat → Option NPDUPriority
  | 0b00 => some .Normal
  | 0b01 => some .Urgent
  | 0b10 => some .CriticalEquipment
  | 0b11 => some .LifeSafety
  | _ => none

/-- Network Layer PDU Message Type (6.2.4), `NPDUMessage` in
`src/network.rs`. -/
inductive NPDUMessage : Type where
  | WhoIsRouterToNetwork
  | IAmRouterToNetwork
  | ICouldBeRouterToNetwork
  | RejectMessageToNetwork
  | RouterBusyToNetwork
  | RouterAvailableToNetwork
  | InitializeRoutingTable
  | InitializeRoutingTableAck
  | EstablishConnectionToNetwork
  | DisconnectConnectionToNetwork
  | ChallengeRequest
  | SecurityPayload
  | SecurityResponse
  | RequestKeyUpdate
  | UpdateKeySet
  | UpdateDistributionKey
  | RequestMasterKey
  | SetMasterKey
  | WhatIsNetworkNumber
  | NetworkNumberIs
  | Proprietary (v : Nat)
  | Reserved (v : Nat)
deriving DecidableEq, Repr

/-- `TryFrom<u8> for NPDUMessage`: the Rust `match` covers the whole u8
domain (`0x14..=0x7F` to `Reserved`, `0x80..=0xFF` to `Proprietary`), so
every arm returns `Ok`. -/
def NPDUMessage.tryFrom (v : Nat) : Except String NPDUMessage :=
  if v = 0x00 then Except.ok .WhoIsRouterToNetwork
  else if v = 0x01 then Except.ok .IAmRouterToNetwork
  else if v = 0x02 then Except.ok .ICouldBeRouterToNetwork
  else if v = 0x03 then Except.ok .RejectMessageToNetwork
  else if v = 0x04 then Except.ok .RouterBusyToNetwork
  else if v = 0x05 then Except.ok .RouterAvailableToNetwork
  else if v = 0x06 then Except.ok .InitializeRoutingTable
  else if v = 0x07 then Except.ok .InitializeRoutingTableAck
  else if v = 0x08 then Except.ok .EstablishConnectionToNetwork
  else if v = 0x09 then Except.ok .DisconnectConnectionToNetwork
  else if v = 0x0A then Except.ok .ChallengeRequest
  else if v = 0x0B then Except.ok .SecurityPayload
  else if v = 0x0C then Except.ok .SecurityResponse
  else if v = 0x0D then Except.ok .RequestKeyUpdate
  else if v = 0x0E then Except.ok .UpdateKeySet
  else if v = 0x0F then Except.ok .UpdateDistributionKey
  else if v = 0x10 then Except.ok .RequestMasterKey
  else if v = 0x11 then Except.ok .SetMasterKey
  else if v = 0x12 then Except.ok .WhatIsNetworkNumber
  else if v = 0x13 then Except.ok .NetworkNumberIs
  else if 0x14 ≤ v ∧ v ≤ 0x7F then Except.ok (.Reserved v)
  else Except.ok (.Proprietary v)

/-- `Encode::encode` for `NPDUMessage`: writes the single message-type byte. -/
def NPDUMessage.encode : NPDUMessage → List Nat
  | .WhoIsRouterToNetwork => [0x00]
  | .IAmRouterToNetwork => [0x01]
  | .ICouldBeRouterToNetwork => [0x02]
  | .RejectMessageToNetwork => [0x03]
  | .RouterBusyToNetwork => [0x04]
  | .RouterAvailableToNetwork => [0x05]
  | .InitializeRoutingTable => [0x06]
  | .InitializeRoutingTableAck => [0x07]
  | .EstablishConnectionToNetwork => [0x08]
  | .DisconnectConnectionToNetwork => [0x09]
  | .ChallengeRequest => [0x0A]
  | .SecurityPayload => [0x0B]
  | .SecurityResponse => [0x0C]
  | .RequestKeyUpdate => [0x0D]
  | .UpdateKeySet => [0x0E]
  | .UpdateDistributionKey => [0x0F]
  | .RequestMasterKey => [0x10]
  | .SetMasterKey => [0x11]
  | .WhatIsNetworkNumber => [0x12]
  | .NetworkNumberIs => [0x13]
  | .Reserved v => [v]
  | .Proprietary v => [v]

/-- `Encode::len` for `NPDUMessage`: every arm of the Rust `match` returns 2. -/
def NPDUMessage.len : NPDUMessage → Nat
  | .WhoIsRouterToNetwork => 2
  | .IAmRouterToNetwork => 2
  | .ICouldBeRouterToNetwork => 2
  | .RejectMessageToNetwork => 2
  | .RouterBusyToNetwork => 2
  | .RouterAvailableToNetwork => 2
  | .InitializeRoutingTable => 2
  | .InitializeRoutingTableAck => 2
  | .EstablishConnectionToNetwork => 2
  | .DisconnectConnectionToNetwork => 2
  | .ChallengeRequest => 2
  | .SecurityPayload => 2
  | .SecurityResponse => 2
  | .RequestKeyUpdate => 2
  | .UpdateKeySet => 2
  | .UpdateDistributionKey => 2
  | .RequestMasterKey => 2
  | .SetMasterKey => 2
  | .WhatIsNetworkNumber => 2
  | .NetworkNumberIs => 2
  | .Reserved _ => 2
  | .Proprietary _ => 2

/-- `NPDUDest` of `src/network.rs`: destination network, address bytes,
hop count. `adr` holds the bytes of the Rust `Vec<u8>` (its length is the
vector's `len()`). -/
structure NPDUDest : Type where
  net : Nat
  adr : List Nat
  hops : Nat
deriving DecidableEq, Repr

/-- `NPDUDest::new`: the Rust constructor builds `adr` with
`Vec::with_capacity(capacity)`, which allocates capacity but has length 0,
so the resulting address buffer is empty whatever capacity was requested;
`hops` defaults to 255. -/
def NPDUDest.new (net : Nat) (capacity : Nat) : NPDUDest :=
  { net := net, adr := [], hops := 255 }

/-- `NPDUSource` of `src/network.rs`. -/
structure NPDUSource : Type where
  net : Nat
  adr : List Nat
deriving DecidableEq, Repr

/-- `NPDUSource::new`: like `NPDUDest::new`, `Vec::with_capacity` yields a
length-0 vector, so `adr` starts empty. -/
def NPDUSource.new (net : Nat) (capacity : Nat) : NPDUSource :=
  { net := net, adr := [] }

/-- `NPDUContent<A, B>`: the two-variant payload, an application payload or
a network control message. -/
inductive NPDUContent (α β : Type) : Type where
  | APDU : α → NPDUContent α β
  | Message : β → NPDUContent α β
deriving DecidableEq, Repr

/-- `Encode::encode` for `NPDUContent`: delegate to the active variant.
The trait methods of the payload types are passed as functions. -/
def NPDUContent.enc {α β : Type} (encA : α → List Nat) (encB : β → List Nat) :
    NPDUContent α β → List Nat
  | .APDU a => encA a
  | .Message m => encB m

/-- `Encode::len` for `NPDUContent`: delegate to the active variant. -/
def NPDUContent.length {α β : Type} (lenA : α → Nat) (lenB : β → Nat) :
    NPDUContent α β → Nat
  | .APDU a => lenA a
  | .Message m => lenB m

/-- Whether the content is the `Message` variant (the `if let
NPDUContent::Message(_)` test in `NPDU::encode`). -/
def NPDUContent.isMessage {α β : Type} : NPDUContent α β → Bool
  | .APDU _ => false
  | .Message _ => true

/-- `NPDU<A, B>` of `src/network.rs`. -/
structure NPDU (α β : Type) : Type where
  version : Nat
  destination : Option NPDUDest
  source : Option NPDUSource
  data_expecting_reply : Bool
  priority : NPDUPriority
  content : NPDUContent α β
deriving DecidableEq, Repr

/-- `NPDU::new`: version is set to the constant 1 and
`data_expecting_reply` to false. -/
def NPDU.new {α β : Type} (content : NPDUContent α β) (destination : Option NPDUDest)
    (source : Option NPDUSource) (priority : NPDUPriority) : NPDU α β :=
  { version := 1
    content := content
    destination := destination
    source := source
    data_expecting_reply := false
    priority := priority }

/-- The control byte assembled by `NPDU::encode` (lines 248-260): priority
code in bits 0-1, then `|=` of bit 2 (data expecting reply), bit 3 (source
present), bit 5 (destination present), bit 7 (content is a control
message). -/
def NPDU.control {α β : Type} (v : NPDU α β) : Nat :=
  ((((NPDUPriority.toU8 v.priority)
    ||| (if v.data_expecting_reply then 1 <<< 2 else 0))
    ||| (if v.source.isSome then 1 <<< 3 else 0))
    ||| (if v.destination.isSome then 1 <<< 5 else 0))
    ||| (if v.content.isMessage then 1 <<< 7 else 0)

/-- `Encode::encode` for `NPDU`: version byte, control byte, optional
destination block (DNET big-endian, DLEN as `adr.len() as u8` i.e.
`% 256`, DADR bytes), optional source block (SNET, SLEN, SADR), the hop
count when a destination is present, then the content. -/
def NPDU.enc {α β : Type} (encA : α → List Nat) (encB : β → List Nat)
    (v : NPDU α β) : List Nat :=
  v.version :: NPDU.control v ::
    ((match v.destination with
      | some d => [d.net / 256, d.net % 256, d.adr.length % 256] ++ d.adr
      | none => [])
    ++ (match v.source with
      | some s => [s.net / 256, s.net % 256, s.adr.length % 256] ++ s.adr
      | none => [])
    ++ (match v.destination with
      | some d => [d.hops]
      | none => [])
    ++ NPDUContent.enc encA encB v.content)

/-- `Encode::len` for `NPDU` (lines 282-298): version + control +
`DNET(2)+DLEN(1)+DADR(*)+HOPS(1)` when a destination is present +
`SNET(2)+SLEN(1)+SADR(*)` when a source is present + content length. -/
def NPDU.length {α β : Type} (lenA : α → Nat) (lenB : β → Nat)
    (v : NPDU α β) : Nat :=
  1 + 1
    + (match v.destination with
      | some d => 2 + 1 + d.adr.length + 1
      | none => 0)
    + (match v.source with
      | some s => 2 + 1 + s.adr.length
      | none => 0)
    + NPDUContent.length lenA lenB v.content

/-- Outcome of a decode call: a constructed value plus the unconsumed tail
of the source, a typed `std::io::Error` returned through `?`, or a panic
(the `unwrap()` / `unimplemented!()` paths, which unwind instead of
returning a `Result`). -/
inductive DecodeOutcome (γ : Type) : Type where
  | ok : γ → List Nat → DecodeOutcome γ
  | ioError : DecodeOutcome γ
  | panicked : DecodeOutcome γ
deriving DecidableEq, Repr

/-- `read_u8`: take one byte off the source, `Err` (here `none`) at end of
input. -/
def readU8 : List Nat → Option (Nat × List Nat)
  | [] => none
  | b :: rest => some (b, rest)

/-- `read_u16::<BigEndian>`: two bytes, high first. -/
def readU16BE : List Nat → Option (Nat × List Nat)
  | b1 :: b2 :: rest => some (b1 * 256 + b2, rest)
  | _ => none

/-- `read_exact` into a buffer of length `n`: consumes exactly `n` bytes,
failing (with `UnexpectedEof`) when fewer remain. -/
def readExact : Nat → List Nat → Option (List Nat × List Nat)
  | 0, input => some ([], input)
  | _ + 1, [] => none
  | n + 1, b :: rest =>
    match readExact n rest with
    | none => none
    | some (bs, r) => some (b :: bs, r)

/-- `Decode::decode` for `NPDU` (lines 302-355). The application-payload
decoder `decA` stands for `APDU::decode` and returns the value with the
unconsumed tail, `none` on a typed failure. Note the destination and
source address reads: `read_exact(&mut dest.adr)` fills the buffer built
by `NPDUDest::new(net, len as usize)`, whose length is 0, so the number of
address bytes consumed is `dest.adr.length`, not `len`. The
`NPDUPriority::from_u8(..).unwrap()` panic and the `unimplemented!()`
branch surface as `DecodeOutcome.panicked`. -/
def NPDU.decode {α β : Type} (decA : List Nat → Option (α × List Nat))
    (input : List Nat) : DecodeOutcome (NPDU α β) :=
  match readU8 input with
  | none => DecodeOutcome.ioError
  | some (version, input) =>
    match readU8 input with
    | none => DecodeOutcome.ioError
    | some (control, input) =>
      match NPDUPriority.fromU8 (control &&& 0b000000011) with
      | none => DecodeOutcome.panicked
      | some priority =>
        let has_apdu : Bool := control &&& (1 <<< 7) == 0
        let has_dest : Bool := control &&& (1 <<< 5) != 0
        let has_source : Bool := control &&& (1 <<< 3) != 0
        let data_expecting_reply : Bool := control &&& (1 <<< 2) != 0
        match (if has_dest then
                match readU16BE input with
                | none => none
                | some (net, input) =>
                  match readU8 input with
                  | none => none
                  | some (len, input) =>
                    let dest := NPDUDest.new net len
                    match readExact dest.adr.length input with
                    | none => none
                    | some (bytes, input) =>
                      some (some { dest with adr := bytes }, input)
              else some (none, input) :
                Option (Option NPDUDest × List Nat)) with
        | none => DecodeOutcome.ioError
        | some (destination, input) =>
          match (if has_source then
                  match readU16BE input with
                  | none => none
                  | some (net, input) =>
                    match readU8 input with
                    | none => none
                    | some (len, input) =>
                      let src := NPDUSource.new net len
                      match readExact src.adr.length input with
                      | none => none
                      | some (bytes, input) =>
                        some (some { src with adr := bytes }, input)
                else some (none, input) :
                  Option (Option NPDUSource × List Nat)) with
          | none => DecodeOutcome.ioError
          | some (source, input) =>
            match (match destination with
                  | some dest =>
                    match readU8 input with
                    | none => none
                    | some (hops, input) =>
                      some (some { dest with hops := hops }, input)
                  | none => some (destination, input) :
                    Option (Option NPDUDest × List Nat)) with
            | none => DecodeOutcome.ioError
            | some (destination, input) =>
              if has_apdu then
                match decA input with
                | none => DecodeOutcome.ioError
                | some (a, input) =>
                  DecodeOutcome.ok
                    { version := version
                      destination := destination
                      source := source
                      data_expecting_reply := data_expecting_reply
                      priority := priority
                      content := NPDUContent.APDU a } input
              else
                DecodeOutcome.panicked

/-- Modelled from the spec: the APDU application payload lives in the
application layer (`crate::application`), outside this core; the spec
treats it as opaque beyond its encode/length/decode contract and its
Scenario A uses a zero-length placeholder APDU (the repository's own tests
use such a `Dummy`). This placeholder encodes to zero bytes, reports
length 0, and decodes by consuming zero bytes. -/
inductive PlaceholderAPDU : Type where
  | mk
deriving DecidableEq, Repr

/-- Modelled from the spec: the placeholder payload writes no bytes. -/
def PlaceholderAPDU.enc : PlaceholderAPDU → List Nat := fun _ => []

/-- Modelled from the spec: the placeholder payload reports length 0. -/
def PlaceholderAPDU.length : PlaceholderAPDU → Nat := fun _ => 0

/-- Modelled from the spec: the placeholder payload decodes by consuming
exactly its own (zero) bytes, leaving the rest of the source. -/
def PlaceholderAPDU.decode : List Nat → Option (PlaceholderAPDU × List Nat) :=
  fun input => some (.mk, input)

/-- `ApplicationTag` of `src/encoding.rs`. -/
inductive ApplicationTag : Type where
  | Null
  | Boolean
  | UnsignedInteger
  | SignedInteger
  | Real
  | Double
  | OctetString
  | CharacterString
  | BitString
  | Enumerated
  | Date
  | Time
  | BACnetObjectIdentifier
  | Reserved (t : Nat)
  | Other (t : Nat)
deriving DecidableEq, Repr

/-- `From<u8> for ApplicationTag`: named kinds for 0-12, `Reserved` for
13-15, `Other` for everything else. -/
def ApplicationTag.fromU8 (tag_number : Nat) : ApplicationTag :=
  if tag_number = 0 then .Null
  else if tag_number = 1 then .Boolean
  else if tag_number = 2 then .UnsignedInteger
  else if tag_number = 3 then .SignedInteger
  else if tag_number = 4 then .Real
  else if tag_number = 5 then .Double
  else if tag_number = 6 then .OctetString
  else if tag_number = 7 then .CharacterString
  else if tag_number = 8 then .BitString
  else if tag_number = 9 then .Enumerated
  else if tag_number = 10 then .Date
  else if tag_number = 11 then .Time
  else if tag_number = 12 then .BACnetObjectIdentifier
  else if 13 ≤ tag_number ∧ tag_number ≤ 15 then .Reserved tag_number
  else .Other tag_number

/-- `From<ApplicationTag> for u8`. -/
def ApplicationTag.toU8 : ApplicationTag → Nat
  | .Null => 0
  | .Boolean => 1
  | .UnsignedInteger => 2
  | .SignedInteger => 3
  | .Real => 4
  | .Double => 5
  | .OctetString => 6
  | .CharacterString => 7
  | .BitString => 8
  | .Enumerated => 9
  | .Date => 10
  | .Time => 11
  | .BACnetObjectIdentifier => 12
  | .Reserved t => t
  | .Other t => t

/-- `ContextTag` of `src/encoding.rs`: a single catch-all. -/
inductive ContextTag : Type where
  | Other (t : Nat)
deriving DecidableEq, Repr

/-- `From<u8> for ContextTag`. -/
def ContextTag.fromU8 (tag_number : Nat) : ContextTag := ContextTag.Other tag_number

/-- `From<ContextTag> for u8`. -/
def ContextTag.toU8 : ContextTag → Nat
  | .Other t => t

/-- A catch-all `ApplicationTag` value carries a code inside the range the
catch-all is designated for: `Reserved` for 13-15, `Other` for any other
byte; named kinds are always in range. -/
def appTagInRange : ApplicationTag → Bool
  | .Reserved t => decide (13 ≤ t ∧ t ≤ 15)
  | .Other t => decide (16 ≤ t ∧ t ≤ 255)
  | _ => true

/-- A catch-all `NPDUMessage` value carries a code inside the range the
catch-all is designated for: `Reserved` for 0x14-0x7F, `Proprietary` for
0x80-0xFF; named kinds are always in range. -/
def npduMsgInRange : NPDUMessage → Bool
  | .Reserved v => decide (0x14 ≤ v ∧ v ≤ 0x7F)
  | .Proprietary v => decide (0x80 ≤ v ∧ v ≤ 0xFF)
  | _ => true

/-- Byte-direction round trip for `NPDUMessage`: converting the byte never
fails and encoding the result writes back exactly that byte. -/
def npduMessageByteRoundTrip (b : Nat) : Bool :=
  match NPDUMessage.tryFrom b with
  | Except.ok m => NPDUMessage.encode m == [b]
  | Except.error _ => false

/-- Claim C1: the spec requires `decode(encode(v)) == v` for every NPDU
with APDU content, but the code drops the destination address bytes:
`NPDUDest::new` builds a length-0 buffer, `read_exact` therefore consumes
no address bytes, and the bytes that were the address are re-parsed as the
hop count and beyond. Encoding an NPDU whose destination address is the
single byte 0x42 and decoding the result yields a different NPDU (empty
address, hop count 0x42) with the trailing byte 255 left unconsumed. -/
theorem npdu_roundtrip_fails_on_nonempty_dest_addr :
    NPDU.decode (β := NPDUMessage) PlaceholderAPDU.decode
        (NPDU.enc PlaceholderAPDU.enc NPDUMessage.encode
          { version := 1
            destination := some { net := 0x126, adr := [0x42], hops := 255 }
            source := none
            data_expecting_reply := false
            priority := NPDUPriority.Normal
            content := NPDUContent.APDU PlaceholderAPDU.mk })
      = DecodeOutcome.ok
          { version := 1
            destination := some { net := 0x126, adr := [], hops := 0x42 }
            source := none
            data_expecting_reply := false
            priority := NPDUPriority.Normal
            content := NPDUContent.APDU PlaceholderAPDU.mk } [255]
    ∧ ({ version := 1
         destination := some { net := 0x126, adr := [], hops := 0x42 }
         source := none
         data_expecting_reply := false
         priority := NPDUPriority.Normal
         content := NPDUContent.APDU PlaceholderAPDU.mk } : NPDU PlaceholderAPDU NPDUMessage)
      ≠ { version := 1
          destination := some { net := 0x126, adr := [0x42], hops := 255 }
          source := none
          data_expecting_reply := false
          priority := NPDUPriority.Normal
          content := NPDUContent.APDU PlaceholderAPDU.mk } := by
  exact ⟨by decide, by decide⟩

/-- Claim C2: `Encode::len` must equal the byte count `encode` produces,
but for every `NPDUMessage` value `encode` writes exactly one byte (the
message-type code) while `len` returns 2. -/
theorem npdu_message_len_diverges_from_encode (m : NPDUMessage) :
    (NPDUMessage.encode m).length = 1 ∧ NPDUMessage.len m = 2 := by
  cases m <;> exact ⟨rfl, rfl⟩

/-- Claim C3: the spec requires decode to read exactly the declared number
of destination address bytes and to fail with a truncation error when
fewer remain. On the input `[1, 0x20, 0x01, 0x26, 0x05, 0xFF]` the
declared address length is 5 but only one byte remains before end of
input; the code nevertheless succeeds, consuming zero address bytes
(the `Vec::with_capacity` buffer has length 0) and returning an empty
address with the next byte read as the hop count. -/
theorem npdu_decode_ignores_declared_addr_length :
    NPDU.decode PlaceholderAPDU.decode [1, 0x20, 0x01, 0x26, 0x05, 0xFF]
      = DecodeOutcome.ok
          ({ version := 1
             destination := some { net := 0x126, adr := [], hops := 0xFF }
             source := none
             data_expecting_reply := false
             priority := NPDUPriority.Normal
             content := NPDUContent.APDU PlaceholderAPDU.mk } : NPDU PlaceholderAPDU NPDUMessage)
          [] := by
  decide

set_option maxRecDepth 4000 in
/-- Claim C9: masking any control byte with `0b11` yields one of the four
two-bit patterns, each of which `NPDUPriority::from_u8` maps to a valid
priority, so the `unwrap()` in `NPDU::decode` cannot panic. -/
theorem npdu_priority_mask_total :
    ∀ c : Fin 256, (NPDUPriority.fromU8 (c.val &&& 0b000000011)).isSome = true := by
  decide

/-- Claim C4: the control byte written by `NPDU::encode` (the second
output byte) carries the priority code in bits 0-1, the
data-expecting-reply flag in bit 2, source presence in bit 3, destination
presence in bit 5, and content-is-message in bit 7, with bits 4 and 6
always clear; equivalently it is the sum of the five disjoint
contributions, so destination-only yields exactly bit 5 plus priority,
source-only bit 3, both bits 3 and 5, and data-expecting-reply adds
bit 2. -/
theorem npdu_control_byte_layout {α β : Type} (encA : α → List Nat)
    (encB : β → List Nat) (v : NPDU α β) :
    (∃ t, NPDU.enc encA encB v = v.version :: NPDU.control v :: t)
    ∧ NPDU.control v
      = NPDUPriority.toU8 v.priority
        + (if v.data_expecting_reply then 4 else 0)
        + (if v.source.isSome then 8 else 0)
        + (if v.destination.isSome then 32 else 0)
        + (if v.content.isMessage then 128 else 0)
    ∧ NPDU.control v % 4 = NPDUPriority.toU8 v.priority
    ∧ (NPDU.control v).testBit 2 = v.data_expecting_reply
    ∧ (NPDU.control v).testBit 3 = v.source.isSome
    ∧ (NPDU.control v).testBit 4 = false
    ∧ (NPDU.control v).testBit 5 = v.destination.isSome
    ∧ (NPDU.control v).testBit 6 = false
    ∧ (NPDU.control v).testBit 7 = v.content.isMessage := by
  obtain ⟨ver, dst, src, der, prio, cont⟩ := v
  refine ⟨⟨_, rfl⟩, ?_⟩
  cases dst <;> cases src <;> cases der <;> cases prio <;> cases cont <;>
    simp [NPDU.control, NPDUContent.isMessage, NPDUPriority.toU8] <;> decide

/-- Claim C5: for every NPDU with a destination present, `NPDU::encode`
emits exactly one hop-count byte, and it appears after the destination
block and after the source block when the latter is present (the source
slot below is empty when there is no source), never between the
destination block and the source block; with both blocks present and
default flags (Normal priority, no data-expecting reply, APDU content)
the control byte is 0x28. -/
theorem npdu_hops_after_both_address_blocks {α β : Type} (encA : α → List Nat)
    (encB : β → List Nat) (v : NPDU α β) (d : NPDUDest)
    (hd : v.destination = some d) :
    NPDU.enc encA encB v
      = v.version :: NPDU.control v ::
          (([d.net / 256, d.net % 256, d.adr.length % 256] ++ d.adr)
            ++ (match v.source with
                | some s => [s.net / 256, s.net % 256, s.adr.length % 256] ++ s.adr
                | none => [])
            ++ [d.hops]
            ++ NPDUContent.enc encA encB v.content)
    ∧ (v.source.isSome = true → v.priority = NPDUPriority.Normal →
        v.data_expecting_reply = false → v.content.isMessage = false →
        NPDU.control v = 0x28) := by
  constructor
  · simp [NPDU.enc, hd]
  · intro hs h1 h2 h3
    simp [NPDU.control, hd, hs, h1, h2, h3, NPDUPriority.toU8]

/-- Witness for C5 at a concrete NPDU carrying a one-byte destination and
source address each. -/
theorem npdu_hops_after_both_address_blocks_witness :
    ({ version := 1
       destination := some { net := 0x126, adr := [7], hops := 255 }
       source := some { net := 0x126, adr := [9] }
       data_expecting_reply := false
       priority := NPDUPriority.Normal
       content := NPDUContent.APDU PlaceholderAPDU.mk } :
        NPDU PlaceholderAPDU NPDUMessage).destination
      = some { net := 0x126, adr := [7], hops := 255 }
    ∧ (NPDU.enc PlaceholderAPDU.enc NPDUMessage.encode
        ({ version := 1
           destination := some { net := 0x126, adr := [7], hops := 255 }
           source := some { net := 0x126, adr := [9] }
           data_expecting_reply := false
           priority := NPDUPriority.Normal
           content := NPDUContent.APDU PlaceholderAPDU.mk } :
            NPDU PlaceholderAPDU NPDUMessage)
        = 1 :: NPDU.control
            ({ version := 1
               destination := some { net := 0x126, adr := [7], hops := 255 }
               source := some { net := 0x126, adr := [9] }
               data_expecting_reply := false
               priority := NPDUPriority.Normal
               content := NPDUContent.APDU PlaceholderAPDU.mk } :
                NPDU PlaceholderAPDU NPDUMessage) ::
            (([0x126 / 256, 0x126 % 256, [7].length % 256] ++ [7])
              ++ ([0x126 / 256, 0x126 % 256, [9].length % 256] ++ [9])
              ++ [255]
              ++ NPDUContent.enc PlaceholderAPDU.enc NPDUMessage.encode
                  (NPDUContent.APDU PlaceholderAPDU.mk))
      ∧ ((some { net := 0x126, adr := [9] } : Option NPDUSource).isSome = true →
          NPDUPriority.Normal = NPDUPriority.Normal → false = false →
          (NPDUContent.APDU PlaceholderAPDU.mk :
              NPDUContent PlaceholderAPDU NPDUMessage).isMessage = false →
          NPDU.control
            ({ version := 1
               destination := some { net := 0x126, adr := [7], hops := 255 }
               source := some { net := 0x126, adr := [9] }
               data_expecting_reply := false
               priority := NPDUPriority.Normal
               content := NPDUContent.APDU PlaceholderAPDU.mk } :
                NPDU PlaceholderAPDU NPDUMessage) = 0x28)) :=
  ⟨rfl,
    npdu_hops_after_both_address_blocks PlaceholderAPDU.enc NPDUMessage.encode
      ({ version := 1
         destination := some { net := 0x126, adr := [7], hops := 255 }
         source := some { net := 0x126, adr := [9] }
         data_expecting_reply := false
         priority := NPDUPriority.Normal
         content := NPDUContent.APDU PlaceholderAPDU.mk } :
          NPDU PlaceholderAPDU NPDUMessage)
      { net := 0x126, adr := [7], hops := 255 }
      rfl⟩

/-- Claim C7 counterexample: `version` is a public field that `encode`
writes as-is, not the constant 1, and `decode` accepts any version byte:
an NPDU whose version field is 2 encodes with first byte 2, and decoding
`[2, 0]` succeeds returning version 2. -/
theorem npdu_version_not_constant_one :
    (NPDU.enc PlaceholderAPDU.enc NPDUMessage.encode
        ({ version := 2
           destination := none
           source := none
           data_expecting_reply := false
           priority := NPDUPriority.Normal
           content := NPDUContent.APDU PlaceholderAPDU.mk } :
            NPDU PlaceholderAPDU NPDUMessage)).head? = some 2
    ∧ NPDU.decode (β := NPDUMessage) PlaceholderAPDU.decode [2, 0]
      = DecodeOutcome.ok
          { version := 2
            destination := none
            source := none
            data_expecting_reply := false
            priority := NPDUPriority.Normal
            content := NPDUContent.APDU PlaceholderAPDU.mk } []
    ∧ (2 : Nat) ≠ 1 := by
  exact ⟨rfl, by decide, by decide⟩

/-- Claim C7 amended: `NPDU::new` sets the version field to the constant
1 and `encode` writes that field first, so every NPDU built by `new`
encodes 1 as its first byte; `decode` merely stores the version byte it
reads, without checking it. -/
theorem npdu_new_version_one {α β : Type} (encA : α → List Nat)
    (encB : β → List Nat) (c : NPDUContent α β) (dst : Option NPDUDest)
    (src : Option NPDUSource) (p : NPDUPriority) :
    (NPDU.new c dst src p).version = 1
    ∧ (NPDU.enc encA encB (NPDU.new c dst src p)).head? = some 1 :=
  ⟨rfl, rfl⟩

/-- Claim C6 counterexample: the kind-to-byte-to-kind direction fails for
a catch-all variant constructed with a code outside its designated range:
`ApplicationTag::Other(3)` converts to the byte 3, which converts back to
`SignedInteger`, not to `Other(3)` or anything equivalent to it. -/
theorem application_tag_other_roundtrip_fails :
    ApplicationTag.fromU8 (ApplicationTag.toU8 (ApplicationTag.Other 3))
      = ApplicationTag.SignedInteger
    ∧ ApplicationTag.SignedInteger ≠ ApplicationTag.Other 3 := by
  exact ⟨rfl, by decide⟩

set_option maxRecDepth 8000 in
set_option maxHeartbeats 1000000 in
/-- Claim C6 amended: the byte-to-kind-to-byte direction is total and
exact over all 256 byte values for `ApplicationTag`, `ContextTag` and
`NPDUMessage` (conversion never fails, unknown codes route to the
catch-alls, and encoding reproduces the byte); the kind-to-byte-to-kind
direction holds for every named kind and for every catch-all whose
carried code lies in that catch-all's designated range, but not for
catch-alls built with out-of-range codes (see the counterexample). -/
theorem tag_code_roundtrip_amended :
    (∀ b : Fin 256, ApplicationTag.toU8 (ApplicationTag.fromU8 b.val) = b.val)
    ∧ (∀ b : Fin 256, ContextTag.toU8 (ContextTag.fromU8 b.val) = b.val)
    ∧ (∀ b : Fin 256, npduMessageByteRoundTrip b.val = true)
    ∧ (∀ t : ApplicationTag, appTagInRange t = true →
        ApplicationTag.fromU8 (ApplicationTag.toU8 t) = t)
    ∧ (∀ t : ContextTag, ContextTag.fromU8 (ContextTag.toU8 t) = t)
    ∧ (∀ m : NPDUMessage, npduMsgInRange m = true →
        ∃ b, NPDUMessage.encode m = [b] ∧ NPDUMessage.tryFrom b = Except.ok m) := by
  refine ⟨by decide, by decide, by decide, ?_, ?_, ?_⟩
  · intro t h
    cases t with
    | Reserved v =>
      obtain ⟨h1, h2⟩ := of_decide_eq_true h
      show ApplicationTag.fromU8 v = ApplicationTag.Reserved v
      interval_cases v <;> rfl
    | Other v =>
      obtain ⟨h1, h2⟩ := of_decide_eq_true h
      show ApplicationTag.fromU8 v = ApplicationTag.Other v
      interval_cases v <;> rfl
    | _ => decide
  · intro t
    cases t
    rfl
  · intro m h
    cases m with
    | Reserved v =>
      obtain ⟨h1, h2⟩ := of_decide_eq_true h
      refine ⟨v, rfl, ?_⟩
      interval_cases v <;> rfl
    | Proprietary v =>
      obtain ⟨h1, h2⟩ := of_decide_eq_true h
      refine ⟨v, rfl, ?_⟩
      interval_cases v <;> rfl
    | _ => exact ⟨_, rfl, rfl⟩

/-- Witness for C6 amended, at an in-range reserved application tag and an
in-range proprietary network message. -/
theorem tag_code_roundtrip_amended_witness :
    appTagInRange (ApplicationTag.Reserved 14) = true
    ∧ ApplicationTag.fromU8 (ApplicationTag.toU8 (ApplicationTag.Reserved 14))
      = ApplicationTag.Reserved 14
    ∧ npduMsgInRange (NPDUMessage.Proprietary 200) = true
    ∧ (∃ b, NPDUMessage.encode (NPDUMessage.Proprietary 200) = [b]
        ∧ NPDUMessage.tryFrom b = Except.ok (NPDUMessage.Proprietary 200)) :=
  ⟨by decide,
    tag_code_roundtrip_amended.2.2.2.1 (ApplicationTag.Reserved 14) (by decide),
    by decide,
    tag_code_roundtrip_amended.2.2.2.2.2 (NPDUMessage.Proprietary 200) (by decide)⟩

/-- Claim C8 counterexample: on a control byte with bit 7 set, decode does
not return the failure as a typed result; it hits `unimplemented!()`,
which panics (unwinds) instead of producing an `Err` value. The input
`[1, 0x80]` reaches that branch and decode ends in the panic outcome,
which is neither an `ok` value nor the typed `ioError`. -/
theorem npdu_decode_message_panics :
    NPDU.decode (α := PlaceholderAPDU) (β := NPDUMessage) PlaceholderAPDU.decode [1, 0x80]
      = DecodeOutcome.panicked
    ∧ (DecodeOutcome.panicked : DecodeOutcome (NPDU PlaceholderAPDU NPDUMessage))
      ≠ DecodeOutcome.ioError := by
  exact ⟨by decide, by decide⟩

/-- Claim C8 amended: when decode reads a control byte with bit 7 set
(content is a control message), it fails fatally through the
`unimplemented!()` panic rather than returning a typed result; shown here
for frames with the addressing bits (5 and 3) clear, where the content
branch is reached immediately. -/
theorem npdu_decode_message_panics_general {α β : Type}
    (decA : List Nat → Option (α × List Nat)) (ver ctrl : Nat) (rest : List Nat)
    (h7 : ctrl &&& (1 <<< 7) ≠ 0) (h5 : ctrl &&& (1 <<< 5) = 0)
    (h3 : ctrl &&& (1 <<< 3) = 0) :
    NPDU.decode (β := β) decA (ver :: ctrl :: rest) = DecodeOutcome.panicked := by
  rw [show (1 <<< 7 : Nat) = 128 from rfl] at h7
  rw [show (1 <<< 5 : Nat) = 32 from rfl] at h5
  rw [show (1 <<< 3 : Nat) = 8 from rfl] at h3
  have h4 : ctrl &&& 0b000000011 = 0 ∨ ctrl &&& 0b000000011 = 1
      ∨ ctrl &&& 0b000000011 = 2 ∨ ctrl &&& 0b000000011 = 3 := by
    have := Nat.and_le_right (n := ctrl) (m := 0b000000011)
    omega
  rcases h4 with h4 | h4 | h4 | h4 <;>
    simp [NPDU.decode, readU8, h4, h7, h5, h3, NPDUPriority.fromU8]

/-- Witness for C8 amended at the concrete frame `[1, 0x80]`. -/
theorem npdu_decode_message_panics_general_witness :
    (0x80 &&& (1 <<< 7) : Nat) ≠ 0
    ∧ (0x80 &&& (1 <<< 5) : Nat) = 0
    ∧ (0x80 &&& (1 <<< 3) : Nat) = 0
    ∧ NPDU.decode (α := PlaceholderAPDU) (β := NPDUMessage) PlaceholderAPDU.decode
        (1 :: 0x80 :: []) = DecodeOutcome.panicked :=
  ⟨by decide, by decide, by decide,
    npdu_decode_message_panics_general PlaceholderAPDU.decode 1 0x80 []
      (by decide) (by decide) (by decide)⟩

/-- Claim C10: when the destination or the source address vector holds
more than 255 bytes, encode writes that block's 8-bit length field as the
length modulo 256 (the `as u8` cast) while still writing every address
byte, so the declared length disagrees with the number of address bytes
emitted; `len` counts all the address bytes and stays equal to the number
of bytes encode produces. The first conjunct covers an oversized
destination, the second an oversized source, the third the agreement of
`len` with encode's byte count for any NPDU whose content length is
consistent. -/
theorem npdu_oversized_addr_length_truncated {α β : Type}
    (encA : α → List Nat) (encB : β → List Nat) (lenA : α → Nat) (lenB : β → Nat)
    (v : NPDU α β)
    (hc : NPDUContent.length lenA lenB v.content
      = (NPDUContent.enc encA encB v.content).length) :
    (∀ d : NPDUDest, v.destination = some d → 255 < d.adr.length →
      (∃ t, NPDU.enc encA encB v
        = v.version :: NPDU.control v
          :: d.net / 256 :: d.net % 256 :: d.adr.length % 256 :: (d.adr ++ t))
      ∧ d.adr.length % 256 ≠ d.adr.length)
    ∧ (∀ s : NPDUSource, v.source = some s → 255 < s.adr.length →
      (∃ t, NPDU.enc encA encB v
        = v.version :: NPDU.control v
          :: ((match v.destination with
               | some d => [d.net / 256, d.net % 256, d.adr.length % 256] ++ d.adr
               | none => [])
            ++ (s.net / 256 :: s.net % 256 :: s.adr.length % 256 :: (s.adr ++ t))))
      ∧ s.adr.length % 256 ≠ s.adr.length)
    ∧ NPDU.length lenA lenB v = (NPDU.enc encA encB v).length := by
  refine ⟨?_, ?_, ?_⟩
  · intro d hd hlen
    have henc : NPDU.enc encA encB v
        = v.version :: NPDU.control v
          :: d.net / 256 :: d.net % 256 :: d.adr.length % 256
          :: (d.adr ++ ((match v.source with
                | some s => [s.net / 256, s.net % 256, s.adr.length % 256] ++ s.adr
                | none => []) ++ ([d.hops]
              ++ NPDUContent.enc encA encB v.content))) := by
      simp [NPDU.enc, hd, List.append_assoc]
    exact ⟨⟨_, henc⟩, by omega⟩
  · intro s hs hlen
    have henc : NPDU.enc encA encB v
        = v.version :: NPDU.control v
          :: ((match v.destination with
               | some d => [d.net / 256, d.net % 256, d.adr.length % 256] ++ d.adr
               | none => [])
            ++ (s.net / 256 :: s.net % 256 :: s.adr.length % 256
              :: (s.adr ++ ((match v.destination with
                    | some d => [d.hops]
                    | none => [])
                  ++ NPDUContent.enc encA encB v.content)))) := by
      simp [NPDU.enc, hs, List.append_assoc]
    exact ⟨⟨_, henc⟩, by omega⟩
  · cases hdst : v.destination <;> cases hsrc : v.source <;>
      simp [NPDU.enc, NPDU.length, hdst, hsrc, hc] <;> omega

set_option maxRecDepth 8000 in
/-- Witness for C10 at an NPDU carrying a 256-byte destination address
and a 257-byte source address. -/
theorem npdu_oversized_addr_length_truncated_witness :
    NPDUContent.length PlaceholderAPDU.length NPDUMessage.len
        (NPDUContent.APDU PlaceholderAPDU.mk : NPDUContent PlaceholderAPDU NPDUMessage)
      = (NPDUContent.enc PlaceholderAPDU.enc NPDUMessage.encode
          (NPDUContent.APDU PlaceholderAPDU.mk :
            NPDUContent PlaceholderAPDU NPDUMessage)).length
    ∧ ({ version := 1
         destination := some { net := 1, adr := List.replicate 256 0, hops := 255 }
         source := some { net := 2, adr := List.replicate 257 1 }
         data_expecting_reply := false
         priority := NPDUPriority.Normal
         content := NPDUContent.APDU PlaceholderAPDU.mk } :
          NPDU PlaceholderAPDU NPDUMessage).destination
      = some { net := 1, adr := List.replicate 256 0, hops := 255 }
    ∧ 255 < (List.replicate 256 (0 : Nat)).length
    ∧ ((∃ t, NPDU.enc PlaceholderAPDU.enc NPDUMessage.encode
          ({ version := 1
             destination := some { net := 1, adr := List.replicate 256 0, hops := 255 }
             source := some { net := 2, adr := List.replicate 257 1 }
             data_expecting_reply := false
             priority := NPDUPriority.Normal
             content := NPDUContent.APDU PlaceholderAPDU.mk } :
              NPDU PlaceholderAPDU NPDUMessage)
        = 1 :: NPDU.control
            ({ version := 1
               destination := some { net := 1, adr := List.replicate 256 0, hops := 255 }
               source := some { net := 2, adr := List.replicate 257 1 }
               data_expecting_reply := false
               priority := NPDUPriority.Normal
               content := NPDUContent.APDU PlaceholderAPDU.mk } :
                NPDU PlaceholderAPDU NPDUMessage)
          :: 1 / 256 :: 1 % 256 :: (List.replicate 256 (0 : Nat)).length % 256
          :: (List.replicate 256 (0 : Nat) ++ t))
      ∧ (List.replicate 256 (0 : Nat)).length % 256 ≠ (List.replicate 256 (0 : Nat)).length)
    ∧ ({ version := 1
         destination := some { net := 1, adr := List.replicate 256 0, hops := 255 }
         source := some { net := 2, adr := List.replicate 257 1 }
         data_expecting_reply := false
         priority := NPDUPriority.Normal
         content := NPDUContent.APDU PlaceholderAPDU.mk } :
          NPDU PlaceholderAPDU NPDUMessage).source
      = some { net := 2, adr := List.replicate 257 1 }
    ∧ 255 < (List.replicate 257 (1 : Nat)).length
    ∧ ((∃ t, NPDU.enc PlaceholderAPDU.enc NPDUMessage.encode
          ({ version := 1
             destination := some { net := 1, adr := List.replicate 256 0, hops := 255 }
             source := some { net := 2, adr := List.replicate 257 1 }
             data_expecting_reply := false
             priority := NPDUPriority.Normal
             content := NPDUContent.APDU PlaceholderAPDU.mk } :
              NPDU PlaceholderAPDU NPDUMessage)
        = 1 :: NPDU.control
            ({ version := 1
               destination := some { net := 1, adr := List.replicate 256 0, hops := 255 }
               source := some { net := 2, adr := List.replicate 257 1 }
               data_expecting_reply := false
               priority := NPDUPriority.Normal
               content := NPDUContent.APDU PlaceholderAPDU.mk } :
                NPDU PlaceholderAPDU NPDUMessage)
          :: (([1 / 256, 1 % 256, (List.replicate 256 (0 : Nat)).length % 256]
                ++ List.replicate 256 (0 : Nat))
            ++ (2 / 256 :: 2 % 256 :: (List.replicate 257 (1 : Nat)).length % 256
              :: (List.replicate 257 (1 : Nat) ++ t))))
      ∧ (List.replicate 257 (1 : Nat)).length % 256 ≠ (List.replicate 257 (1 : Nat)).length)
    ∧ NPDU.length PlaceholderAPDU.length NPDUMessage.len
        ({ version := 1
           destination := some { net := 1, adr := List.replicate 256 0, hops := 255 }
           source := some { net := 2, adr := List.replicate 257 1 }
           data_expecting_reply := false
           priority := NPDUPriority.Normal
           content := NPDUContent.APDU PlaceholderAPDU.mk } :
            NPDU PlaceholderAPDU NPDUMessage)
      = (NPDU.enc PlaceholderAPDU.enc NPDUMessage.encode
          ({ version := 1
             destination := some { net := 1, adr := List.replicate 256 0, hops := 255 }
             source := some { net := 2, adr := List.replicate 257 1 }
             data_expecting_reply := false
             priority := NPDUPriority.Normal
             content := NPDUContent.APDU PlaceholderAPDU.mk } :
              NPDU PlaceholderAPDU NPDUMessage)).length := by
  have h := npdu_oversized_addr_length_truncated PlaceholderAPDU.enc NPDUMessage.encode
      PlaceholderAPDU.length NPDUMessage.len
      ({ version := 1
         destination := some { net := 1, adr := List.replicate 256 0, hops := 255 }
         source := some { net := 2, adr := List.replicate 257 1 }
         data_expecting_reply := false
         priority := NPDUPriority.Normal
         content := NPDUContent.APDU PlaceholderAPDU.mk } :
          NPDU PlaceholderAPDU NPDUMessage) rfl
  exact ⟨rfl, rfl, by simp, h.1 _ rfl (by simp), rfl, by simp, h.2.1 _ rfl (by simp), h.2.2⟩

example : NPDU.enc PlaceholderAPDU.enc NPDUMessage.encode
    (NPDU.new (NPDUContent.APDU PlaceholderAPDU.mk) none none NPDUPriority.Normal)
    = [1, 0] := by decide

example : NPDU.enc PlaceholderAPDU.enc NPDUMessage.encode
    { version := 1
      destination := some { net := 0x126, adr := List.replicate 16 0, hops := 255 }
      source := none
      data_expecting_reply := false
      priority := NPDUPriority.Normal
      content := NPDUContent.APDU PlaceholderAPDU.mk }
    = [1, 32, 1, 38, 16, 0, 0, 0, 0, 0, 0, 0, 0, 0, 0, 0, 0, 0, 0, 0, 0, 255] := by decide

example : NPDU.enc PlaceholderAPDU.enc NPDUMessage.encode
    { version := 1
      destination := some { net := 0x126, adr := List.replicate 16 0, hops := 255 }
      source := some { net := 0x126, adr := List.replicate 16 0 }
      data_expecting_reply := false
      priority := NPDUPriority.Normal
      content := NPDUContent.APDU PlaceholderAPDU.mk }
    = [1, 40, 1, 38, 16, 0, 0, 0, 0, 0, 0, 0, 0, 0, 0, 0, 0, 0, 0, 0, 0,
       1, 38, 16, 0, 0, 0, 0, 0, 0, 0, 0, 0, 0, 0, 0, 0, 0, 0, 0, 255] := by decide
